import Mathlib

/-!
Shallow embedding of `src/run.ts`, an interactive CLI that lists Shopify
sales-channel publications and publishes a product to a chosen one.

Modelling conventions:
* GraphQL responses are records mirroring the shape each operation reads
  (`r.publications.edges[].node`, `r.product.resourcePublicationsV2...`,
  `r.publishablePublish.userErrors`).  The `product` field of the product
  query is nullable in the GraphQL schema, hence `Option`.
* A thrown JavaScript error (a `TypeError` from dereferencing `null`, or a
  `new Error(...)`) is an `Except.error` carrying a `JsError`.
* `console.log` writes its argument plus a newline to stdout;
  `console.warn` writes to stderr.  Console activity is recorded as a list
  of `ConsoleEvent`s.
* Interactive prompts are external inputs: each prompt consumes one
  scripted answer.  A cancelled prompt yields `none` (the `prompts`
  library resolves with a response object that lacks the answer key, so
  the extracted field is `undefined`).
* The driver loop `while (true) ...` is embedded with a fuel parameter;
  exhausting fuel or the scripted answers yields the marker result
  `RunResult.outOfScript`, a model artifact distinct from both normal
  termination and a crash.
-/

set_option autoImplicit false

/-- Configuration record persisted as JSON (`type Config` in run.ts). -/
structure Config where
  shopName : String
  accessToken : String
deriving DecidableEq, Repr

/-- Publication record (`type Publication` in run.ts): `id` aliased to `gid`, plus `name`. -/
structure Publication where
  gid : String
  name : String
deriving DecidableEq, Repr

/-- User error entry of the publish mutation payload (`{ message: string }`). -/
structure UserError where
  message : String
deriving DecidableEq, Repr

/-- Errors a JavaScript evaluation can throw: a TypeError from dereferencing
`null`/`undefined`, or an explicitly constructed `new Error(message)`. -/
inductive JsError where
  | typeError (message : String)
  | error (message : String)
deriving DecidableEq, Repr

/-- Console activity: `console.log(line)` (stdout) or
`console.warn(message, errs)` (stderr). -/
inductive ConsoleEvent where
  | log (line : String)
  | warn (message : String) (errs : List UserError)
deriving DecidableEq, Repr

/-- Edge of the `publications(first: 20)` connection. -/
structure PublicationsEdge where
  node : Publication
deriving DecidableEq, Repr

/-- Connection returned by the `publications(first: 20)` query. -/
structure PublicationsConnection where
  edges : List PublicationsEdge
deriving DecidableEq, Repr

/-- Response shape of `listPublications`. -/
structure ListPublicationsResponse where
  publications : PublicationsConnection
deriving DecidableEq, Repr

/-- Node of the `resourcePublicationsV2` connection: wraps a publication. -/
structure ResourcePublicationNode where
  publication : Publication
deriving DecidableEq, Repr

/-- Edge of the `resourcePublicationsV2` connection. -/
structure ResourcePublicationEdge where
  node : ResourcePublicationNode
deriving DecidableEq, Repr

/-- The `resourcePublicationsV2(first: 10)` connection of a product. -/
structure ResourcePublicationsV2 where
  edges : List ResourcePublicationEdge
deriving DecidableEq, Repr

/-- The non-null part of the `product` field of the product query. -/
structure ProductPayload where
  resourcePublicationsV2 : ResourcePublicationsV2
deriving DecidableEq, Repr

/-- Response shape of `listProductPublications`; `product` is nullable
(the API returns `product: null` for an unknown id). -/
structure ProductPubsResponse where
  product : Option ProductPayload
deriving DecidableEq, Repr

/-- Payload of the `publishablePublish` mutation. -/
structure PublishablePublishPayload where
  userErrors : List UserError
deriving DecidableEq, Repr

/-- Response shape of the publish mutation. -/
structure PublishResponse where
  publishablePublish : PublishablePublishPayload
deriving DecidableEq, Repr

/-- Endpoint URL built by the `Client` constructor from the shop name. -/
def apiUrl (shopName : String) : String :=
  "https://" ++ shopName ++ ".myshopify.com/admin/api/2021-07/graphql.json"

/-- Global product identifier built by string concatenation, with no local
validation of `productId` (run.ts lines 52 and 76). -/
def productGidOf (productId : String) : String :=
  "gid://shopify/Product/" ++ productId

/-- Embeds `Client.listPublications`: flattens `r.publications.edges[].node`. -/
def listPublications (resp : ListPublicationsResponse) : List Publication :=
  resp.publications.edges.map (fun e => e.node)

/-- Embeds `Client.listProductPublications` applied to a response.  Returns
the `productGid` variable sent with the query together with the outcome:
`r.product.resourcePublicationsV2.edges.map(e => e.node.publication)`.
When the response's `product` is `null`, the member access
`r.product.resourcePublicationsV2` throws a TypeError. -/
def listProductPublications (productId : String) (resp : ProductPubsResponse) :
    String × Except JsError (List Publication) :=
  let productGid := productGidOf productId
  (productGid,
    match resp.product with
    | none =>
        Except.error (JsError.typeError
          "Cannot read properties of null (reading resourcePublicationsV2)")
    | some p =>
        Except.ok (p.resourcePublicationsV2.edges.map (fun e => e.node.publication)))

/-- Variables sent with the publish mutation. -/
structure PublishVars where
  productGid : String
  publicationGid : String
  publishDate : String
deriving DecidableEq, Repr

/-- Embeds `Client.publishProduct` applied to a response.  `now` is the
call-time instant (`new Date().toISOString()`).  Returns the mutation
variables, the console activity, and the outcome: a non-empty
`userErrors` array is warned about and converted into
`new Error("Unable to publish")`; an empty one resolves with no value. -/
def publishProduct (productId publicationGid : String) (now : String)
    (resp : PublishResponse) :
    PublishVars × List ConsoleEvent × Except JsError Unit :=
  let productGid := productGidOf productId
  let publishDate := now
  let userErrors := resp.publishablePublish.userErrors
  (⟨productGid, publicationGid, publishDate⟩,
    if userErrors.length > 0 then
      ([ConsoleEvent.warn "Got errors while publishing" userErrors],
        Except.error (JsError.error "Unable to publish"))
    else
      ([], Except.ok ()))

/-- Embeds `printPublications(label, ps)`: an empty `console.log()`, the
header (whose template ends with an embedded newline character), one
bullet per entry, and a final empty `console.log()`. -/
def printPublications (label : String) (ps : List Publication) : List ConsoleEvent :=
  [ConsoleEvent.log ""] ++
  [ConsoleEvent.log (label ++ " (" ++ Nat.repr ps.length ++ ")\n")] ++
  ps.map (fun p => ConsoleEvent.log ("* " ++ p.name ++ " (" ++ p.gid ++ ")")) ++
  [ConsoleEvent.log ""]

/-- Embeds `askProductId`: the operator either enters a string (`some`) or
cancels, in which case the response object lacks the `productId` key and
the extracted field is `undefined` (`none`). -/
def askProductId (answer : Option String) : Option String :=
  answer

/-- Choice of a select prompt: a display title and a value. -/
structure Choice where
  title : String
  value : String
deriving DecidableEq, Repr

/-- Choice list of the publication select prompt: the Skip choice (valued
by the empty string) followed by one choice per publication, titled by
name and valued by gid. -/
def askPublicationChoices (pubs : List Publication) : List Choice :=
  let skipChoice : Choice := ⟨"Skip", ""⟩
  let pubChoices := pubs.map (fun pub => Choice.mk pub.name pub.gid)
  skipChoice :: pubChoices

/-- Raw value produced by the select prompt before post-processing: the
value of the choice at the selected index, or `none` when the prompt was
cancelled (the response object lacks the key). -/
def choiceValue (pubs : List Publication) (answer : Option Nat) : Option String :=
  answer.bind (fun i => (askPublicationChoices pubs).get? i |>.map Choice.value)

/-- Embeds `askPublicationGid`: the raw selected value, with the empty
string (the Skip value) mapped to the no-selection sentinel `undefined`. -/
def askPublicationGid (pubs : List Publication) (answer : Option Nat) : Option String :=
  match choiceValue pubs answer with
  | none => none
  | some v => if v = "" then none else some v

/-- Lowercase-hex `\u00XX` escape used by `JSON.stringify` for control
characters without a short escape. -/
def uEscape (c : Char) : String :=
  let n := c.toNat
  "\\u00" ++ String.singleton (Nat.digitChar (n / 16)) ++
    String.singleton (Nat.digitChar (n % 16))

/-- Escape of one character inside a JSON string literal, as performed by
`JSON.stringify`. -/
def jsonEscapeChar (c : Char) : String :=
  if c = '"' then "\\\""
  else if c = '\\' then "\\\\"
  else if c = '\x08' then "\\b"
  else if c = '\x0c' then "\\f"
  else if c = '\n' then "\\n"
  else if c = '\r' then "\\r"
  else if c = '\t' then "\\t"
  else if c.toNat < 32 then uEscape c
  else String.singleton c

/-- Escape of a whole string for a JSON string literal. -/
def jsonEscape (s : String) : String :=
  s.data.foldl (fun acc c => acc ++ jsonEscapeChar c) ""

/-- JSON string literal (quotes included). -/
def jsonQuote (s : String) : String :=
  "\"" ++ jsonEscape s ++ "\""

/-- Embeds `JSON.stringify(config, null, 2)`: a pretty-printed object with
2-space indentation holding the two fields. -/
def jsonStringifyConfig (c : Config) : String :=
  "\x7b\n  \"shopName\": " ++ jsonQuote c.shopName ++
    ",\n  \"accessToken\": " ++ jsonQuote c.accessToken ++ "\n\x7d"

/-- Fixed config path `path.join(__dirname, "config.json")`, where
`dirname` is the program's directory. -/
def configPath (dirname : String) : String :=
  dirname ++ "/config.json"

/-- Outcome of `loadConfig`: the returned (or thrown) value, the number of
interactive config prompts issued, the file writes performed (path and
contents), and the console activity. -/
structure LoadResult where
  result : Except JsError Config
  promptCount : Nat
  writes : List (String × String)
  console : List ConsoleEvent
deriving Repr

/-- Embeds `loadConfig`.  `parse` is `JSON.parse` specialised to the stored
shape (`none` models a thrown `SyntaxError`); `fileContents` is the
contents of the file at the fixed path, `none` when absent
(`fs.existsSync` is false); `promptAnswer` is the config the interactive
prompt would collect. -/
def loadConfig (dirname : String) (parse : String → Option Config)
    (fileContents : Option String) (promptAnswer : Config) : LoadResult :=
  match fileContents with
  | some contents =>
      let logs := [ConsoleEvent.log ("Using config from " ++ configPath dirname ++ "...")]
      match parse contents with
      | some cfg => ⟨Except.ok cfg, 0, [], logs⟩
      | none => ⟨Except.error (JsError.error "SyntaxError: Unexpected token in JSON"),
          0, [], logs⟩
  | none =>
      ⟨Except.ok promptAnswer, 1,
        [(configPath dirname, jsonStringifyConfig promptAnswer)],
        [ConsoleEvent.log ("Writing config to " ++ configPath dirname ++ ".")]⟩

/-- Observable event of a run: one of the three network operations, or
console activity. -/
inductive Event where
  | netListPublications
  | netListProductPubs (productGid : String)
  | netPublish (vars : PublishVars)
  | out (c : ConsoleEvent)
deriving DecidableEq, Repr

/-- Whether an event is a network call. -/
def Event.isNet : Event → Bool
  | Event.netListPublications => true
  | Event.netListProductPubs _ => true
  | Event.netPublish _ => true
  | Event.out _ => false

/-- Whether an event is a publish mutation call. -/
def Event.isPublish : Event → Bool
  | Event.netPublish _ => true
  | _ => false

/-- Final status of a run of the driver loop. -/
inductive RunResult where
  | done
  | crashed (e : JsError)
  | outOfScript
deriving DecidableEq, Repr

/-- Embeds the `while (true)` loop of `main` (run.ts lines 162-183).
Scripted external inputs are consumed head-first: `productIdAnswers` for
the product-id prompt, `selectAnswers` for the publication select prompt
(an index into the choice list, `none` for cancel), `productPubsResponses`
and `publishResponses` for the two network operations.  `clock fuel` is
the instant observed by `new Date()` in the publish call of the iteration
with that remaining fuel.  Fuel (or script) exhaustion yields the model
artifact `RunResult.outOfScript`. -/
def mainLoop (allPubs : List Publication) (clock : Nat → String) :
    Nat → List (Option String) → List (Option Nat) →
    List ProductPubsResponse → List PublishResponse → List Event × RunResult
  | 0, _, _, _, _ => ([], RunResult.outOfScript)
  | _ + 1, [], _, _, _ => ([], RunResult.outOfScript)
  | fuel + 1, ans :: restIds, sels, resps, pubResps =>
    match askProductId ans with
    | none => ([Event.out (ConsoleEvent.log "Done!")], RunResult.done)
    | some pid =>
      if pid = "" then
        ([Event.out (ConsoleEvent.log "Done!")], RunResult.done)
      else
        let lookLog := Event.out (ConsoleEvent.log
          ("Looking for publications for product " ++ pid ++ "..."))
        match resps with
        | [] => ([lookLog], RunResult.outOfScript)
        | resp :: restResps =>
          let lp := listProductPublications pid resp
          let callEv := Event.netListProductPubs lp.1
          match lp.2 with
          | Except.error e => ([lookLog, callEv], RunResult.crashed e)
          | Except.ok productPubs =>
            let printEvs := (printPublications
              ("Publications for product " ++ pid) productPubs).map Event.out
            match sels with
            | [] => ([lookLog, callEv] ++ printEvs, RunResult.outOfScript)
            | sel :: restSels =>
              match askPublicationGid allPubs sel with
              | none =>
                let res := mainLoop allPubs clock fuel restIds restSels restResps pubResps
                ([lookLog, callEv] ++ printEvs ++
                  (Event.out (ConsoleEvent.log "Skipping.") :: res.1), res.2)
              | some pubGid =>
                let pubLog := Event.out (ConsoleEvent.log
                  ("Publish product " ++ pid ++ " to " ++ pubGid ++ "..."))
                match pubResps with
                | [] => ([lookLog, callEv] ++ printEvs ++ [pubLog], RunResult.outOfScript)
                | presp :: restPresps =>
                  let pr := publishProduct pid pubGid (clock fuel) presp
                  let reqEv := Event.netPublish pr.1
                  match pr.2.2 with
                  | Except.error e =>
                    ([lookLog, callEv] ++ printEvs ++ [pubLog, reqEv] ++
                      pr.2.1.map Event.out, RunResult.crashed e)
                  | Except.ok _ =>
                    let res := mainLoop allPubs clock fuel restIds restSels restResps restPresps
                    ([lookLog, callEv] ++ printEvs ++ [pubLog, reqEv] ++
                      pr.2.1.map Event.out ++ res.1, res.2)

/-- Embeds `main`: load the config, construct the client, fetch and print
all publications once, then run the loop with the cached list as the
selection menu. -/
def mainProgram (dirname : String) (parse : String → Option Config)
    (fileContents : Option String) (promptAnswer : Config)
    (listResp : ListPublicationsResponse) (clock : Nat → String) (fuel : Nat)
    (productIdAnswers : List (Option String)) (selectAnswers : List (Option Nat))
    (productPubsResponses : List ProductPubsResponse)
    (publishResponses : List PublishResponse) : List Event × RunResult :=
  let lr := loadConfig dirname parse fileContents promptAnswer
  match lr.result with
  | Except.error e => (lr.console.map Event.out, RunResult.crashed e)
  | Except.ok _config =>
    let allPubs := listPublications listResp
    let pre := lr.console.map Event.out ++ [Event.netListPublications] ++
      [Event.out (ConsoleEvent.log "Looking for all publications...")] ++
      (printPublications "All publications" allPubs).map Event.out
    let res := mainLoop allPubs clock fuel productIdAnswers selectAnswers
      productPubsResponses publishResponses
    (pre ++ res.1, res.2)

/-- Payloads written to stdout by a list of console events (`console.log`
only; `console.warn` goes to stderr). -/
def stdoutStrings : List ConsoleEvent → List String
  | [] => []
  | ConsoleEvent.log s :: es => s :: stdoutStrings es
  | ConsoleEvent.warn _ _ :: es => stdoutStrings es

/-- Character stream written to stdout: each `console.log(s)` writes `s`
followed by one newline. -/
def stdoutChars (evs : List ConsoleEvent) : List Char :=
  (stdoutStrings evs).flatMap (fun s => s.data ++ ['\n'])

/-- Splits a character stream into physical lines at newline characters.
The stream `a ++ "\n"` splits into the lines of `a` plus a final empty
remainder; `splitLines` always returns at least one (possibly empty)
trailing remainder. -/
def splitLines : List Char → List (List Char)
  | [] => [[]]
  | c :: rest =>
    if c = '\n' then [] :: splitLines rest
    else
      match splitLines rest with
      | [] => [[c]]
      | l :: ls => (c :: l) :: ls

/-- Physical lines a list of console events prints to stdout.  The
terminal stream ends with a newline, so the empty remainder after the
last newline is dropped. -/
def stdoutLines (evs : List ConsoleEvent) : List String :=
  ((splitLines (stdoutChars evs)).dropLast).map String.mk

theorem splitLines_append_nl (a : List Char) (b : List Char) (ha : '\n' ∉ a) :
    splitLines (a ++ '\n' :: b) = a :: splitLines b := by
  induction a with
  | nil => simp [splitLines]
  | cons c a ih =>
    have hc : c ≠ '\n' := fun h => ha (h ▸ List.mem_cons_self c a)
    have ha' : '\n' ∉ a := fun h => ha (List.mem_cons_of_mem c h)
    simp [splitLines, hc, ih ha']

theorem splitLines_flatMap (strs : List String)
    (h : ∀ s ∈ strs, '\n' ∉ s.data) :
    splitLines (strs.flatMap (fun s => s.data ++ ['\n'])) =
      strs.map String.data ++ [[]] := by
  induction strs with
  | nil => simp [splitLines]
  | cons s strs ih =>
    have hs : '\n' ∉ s.data := h s (List.mem_cons_self s strs)
    have h' : ∀ t ∈ strs, '\n' ∉ t.data := fun t ht => h t (List.mem_cons_of_mem s ht)
    rw [List.flatMap_cons, List.append_assoc, List.singleton_append,
      splitLines_append_nl _ _ hs, ih h']
    simp

theorem stdoutLines_flatMap (strs : List String)
    (h : ∀ s ∈ strs, '\n' ∉ s.data) :
    ((splitLines (strs.flatMap (fun s => s.data ++ ['\n']))).dropLast).map String.mk
      = strs := by
  rw [splitLines_flatMap strs h, List.dropLast_concat, List.map_map]
  have hmk : String.mk ∘ String.data = id := funext fun s => rfl
  rw [hmk, List.map_id]


theorem digitChar_lt_ten_ne_newline : ∀ m < 10, Nat.digitChar m ≠ '\n' := by decide

theorem toDigitsCore_ne_newline (fuel : Nat) :
    ∀ (n : Nat) (ds : List Char), (∀ c ∈ ds, c ≠ '\n') →
      ∀ c ∈ Nat.toDigitsCore 10 fuel n ds, c ≠ '\n' := by
  induction fuel with
  | zero => intro n ds hds c hc; exact hds c hc
  | succ fuel ih =>
    intro n ds hds c hc
    have hdig : Nat.digitChar (n % 10) ≠ '\n' :=
      digitChar_lt_ten_ne_newline (n % 10) (Nat.mod_lt n (by decide))
    have hds' : ∀ d ∈ Nat.digitChar (n % 10) :: ds, d ≠ '\n' := by
      intro d hd
      rcases List.mem_cons.mp hd with h | h
      · exact h ▸ hdig
      · exact hds d h
    by_cases h10 : n / 10 = 0
    · simp only [Nat.toDigitsCore, h10, if_pos] at hc
      exact hds' c hc
    · simp only [Nat.toDigitsCore, h10, if_neg, ite_false] at hc
      exact ih _ _ hds' c hc

theorem repr_no_newline (n : Nat) : '\n' ∉ (Nat.repr n).data := by
  intro h
  exact toDigitsCore_ne_newline (n + 1) n [] (by intro c hc; cases hc) '\n' h rfl

theorem stdoutStrings_append (a b : List ConsoleEvent) :
    stdoutStrings (a ++ b) = stdoutStrings a ++ stdoutStrings b := by
  induction a with
  | nil => rfl
  | cons e a ih => cases e <;> simp [stdoutStrings, ih]

theorem stdoutStrings_map_log {α : Type} (f : α → String) (xs : List α) :
    stdoutStrings (xs.map (fun x => ConsoleEvent.log (f x))) = xs.map f := by
  induction xs with
  | nil => rfl
  | cons x xs ih => simp [stdoutStrings, ih]

/-- C9 (amended): the printed block has an additional blank line between
the header and the bullets. -/
theorem printPublications_lines_amended (label : String) (ps : List Publication)
    (h1 : '\n' ∉ label.data)
    (h2 : ∀ p ∈ ps, '\n' ∉ p.name.data ∧ '\n' ∉ p.gid.data) :
    stdoutLines (printPublications label ps) =
      ["", label ++ " (" ++ Nat.repr ps.length ++ ")", ""] ++
      ps.map (fun p => "* " ++ p.name ++ " (" ++ p.gid ++ ")") ++ [""] := by
  have key : stdoutChars (printPublications label ps) =
      ((["", label ++ " (" ++ Nat.repr ps.length ++ ")", ""] ++
        ps.map (fun p => "* " ++ p.name ++ " (" ++ p.gid ++ ")") ++ [""]).flatMap
        (fun s => s.data ++ ['\n'])) := by
    simp [stdoutChars, printPublications, stdoutStrings_append, stdoutStrings,
      stdoutStrings_map_log, String.data_append]
  have hlab2 : '\n' ∉ (label ++ " (" ++ Nat.repr ps.length ++ ")").data := by
    simp only [String.data_append, List.mem_append, not_or]
    exact ⟨⟨⟨h1, by decide⟩, repr_no_newline _⟩, by decide⟩
  have hnl : ∀ s ∈ (["", label ++ " (" ++ Nat.repr ps.length ++ ")", ""] ++
      ps.map (fun p => "* " ++ p.name ++ " (" ++ p.gid ++ ")") ++ [""]), '\n' ∉ s.data := by
    intro s hs
    rcases List.mem_append.mp hs with hs | hs
    · rcases List.mem_append.mp hs with hs | hs
      · simp only [List.mem_cons, List.not_mem_nil, or_false] at hs
        rcases hs with rfl | rfl | rfl
        · decide
        · exact hlab2
        · decide
      · rcases List.mem_map.mp hs with ⟨p, hp, rfl⟩
        have hp2 := h2 p hp
        simp only [String.data_append, List.mem_append, not_or]
        exact ⟨⟨⟨⟨by decide, hp2.1⟩, by decide⟩, hp2.2⟩, by decide⟩
    · simp only [List.mem_singleton] at hs
      subst hs
      decide
  rw [stdoutLines, key]
  exact stdoutLines_flatMap _ hnl

/-- C9 counterexample: at the spec's own worked example the block printed
to stdout is five lines (an extra blank line follows the header), not the
four lines the claim describes. -/
theorem printPublications_lines_cex :
    stdoutLines (printPublications "All publications"
        [⟨"gid://shopify/Publication/1", "Online Store"⟩]) ≠
      ["", "All publications (1)",
        "* Online Store (gid://shopify/Publication/1)", ""] := by
  decide

/-- C9 witness: the amended statement evaluated at the spec's worked
example. -/
theorem printPublications_lines_amended_witness :
    stdoutLines (printPublications "All publications"
        [⟨"gid://shopify/Publication/1", "Online Store"⟩]) =
      ["", "All publications (1)", "",
        "* Online Store (gid://shopify/Publication/1)", ""] :=
  printPublications_lines_amended "All publications"
    [⟨"gid://shopify/Publication/1", "Online Store"⟩]
    (by decide) (by decide)

/-- C1: the publish operation resolves without error (returning no value)
exactly when the response's `userErrors` array is empty; a non-empty
array is logged via `console.warn` and converted into the generic
`Unable to publish` error, whatever the messages say. -/
theorem publishProduct_userErrors_spec (productId publicationGid now : String)
    (resp : PublishResponse) :
    (resp.publishablePublish.userErrors = [] →
      publishProduct productId publicationGid now resp =
        (⟨productGidOf productId, publicationGid, now⟩, [], Except.ok ())) ∧
    (resp.publishablePublish.userErrors ≠ [] →
      publishProduct productId publicationGid now resp =
        (⟨productGidOf productId, publicationGid, now⟩,
          [ConsoleEvent.warn "Got errors while publishing"
            resp.publishablePublish.userErrors],
          Except.error (JsError.error "Unable to publish"))) := by
  constructor
  · intro h
    simp [publishProduct, h]
  · intro h
    have hl : 0 < resp.publishablePublish.userErrors.length :=
      List.length_pos.mpr h
    simp [publishProduct, hl]

/-- C1 witness: the two branches evaluated at concrete responses, one with
an empty `userErrors` array and one with the spec's `already published`
error. -/
theorem publishProduct_userErrors_spec_witness :
    publishProduct "1" "gid://shopify/Publication/1" "2021-07-01T00:00:00.000Z"
        ⟨⟨[]⟩⟩ =
      (⟨"gid://shopify/Product/1", "gid://shopify/Publication/1",
        "2021-07-01T00:00:00.000Z"⟩, [], Except.ok ()) ∧
    publishProduct "1" "gid://shopify/Publication/1" "2021-07-01T00:00:00.000Z"
        ⟨⟨[⟨"already published"⟩]⟩⟩ =
      (⟨"gid://shopify/Product/1", "gid://shopify/Publication/1",
        "2021-07-01T00:00:00.000Z"⟩,
        [ConsoleEvent.warn "Got errors while publishing" [⟨"already published"⟩]],
        Except.error (JsError.error "Unable to publish")) :=
  ⟨(publishProduct_userErrors_spec "1" "gid://shopify/Publication/1"
      "2021-07-01T00:00:00.000Z" ⟨⟨[]⟩⟩).1 rfl,
    (publishProduct_userErrors_spec "1" "gid://shopify/Publication/1"
      "2021-07-01T00:00:00.000Z" ⟨⟨[⟨"already published"⟩]⟩⟩).2 (by decide)⟩

/-- C4 counterexample: the operation is not total over well-formed
responses — a response whose `product` field is null makes
`listProductPublications` throw a TypeError (a local crash), because
`r.product.resourcePublicationsV2` dereferences `null`. -/
theorem listProductPublications_total_cex :
    ¬ ∀ (productId : String) (resp : ProductPubsResponse),
        ∃ pubs, (listProductPublications productId resp).2 = Except.ok pubs := by
  intro h
  rcases h "123" ⟨none⟩ with ⟨pubs, hp⟩
  simp [listProductPublications] at hp

/-- C4 (amended): the client performs no local validation of the product
id — the identifier sent is plain concatenation for every string — and
the operation is total over well-formed responses whose `product` field
is non-null; a null `product`, however, crashes the operation locally
with a TypeError instead of yielding an empty result set. -/
theorem listProductPublications_amended (productId : String)
    (resp : ProductPubsResponse) :
    ((listProductPublications productId resp).1 =
      "gid://shopify/Product/" ++ productId) ∧
    (∀ p, resp.product = some p →
      (listProductPublications productId resp).2 =
        Except.ok (p.resourcePublicationsV2.edges.map (fun e => e.node.publication))) ∧
    (resp.product = none →
      (listProductPublications productId resp).2 =
        Except.error (JsError.typeError
          "Cannot read properties of null (reading resourcePublicationsV2)")) := by
  refine ⟨rfl, ?_, ?_⟩
  · intro p hp
    simp [listProductPublications, hp]
  · intro hp
    simp [listProductPublications, hp]

/-- C4 witness: the amended statement evaluated at an arbitrary id with a
null-product response and a one-publication response. -/
theorem listProductPublications_amended_witness :
    (listProductPublications "not-even-numeric" ⟨none⟩).1 =
      "gid://shopify/Product/not-even-numeric" ∧
    (listProductPublications "not-even-numeric" ⟨none⟩).2 =
      Except.error (JsError.typeError
        "Cannot read properties of null (reading resourcePublicationsV2)") ∧
    (listProductPublications "7" ⟨some ⟨⟨[⟨⟨⟨"gid://shopify/Publication/1",
        "Online Store"⟩⟩⟩]⟩⟩⟩).2 =
      Except.ok [⟨"gid://shopify/Publication/1", "Online Store"⟩] :=
  ⟨(listProductPublications_amended "not-even-numeric" ⟨none⟩).1,
    (listProductPublications_amended "not-even-numeric" ⟨none⟩).2.2 rfl,
    (listProductPublications_amended "7" ⟨some ⟨⟨[⟨⟨⟨"gid://shopify/Publication/1",
        "Online Store"⟩⟩⟩]⟩⟩⟩).2.1 ⟨⟨[⟨⟨⟨"gid://shopify/Publication/1",
        "Online Store"⟩⟩⟩]⟩⟩ rfl⟩

/-- C8: the product query sends the identifier built by concatenating the
fixed `gid://shopify/Product/` namespace with the raw id, and the result
mirrors the response's nested publication objects in order; since the
query requests `first: 10`, a well-formed response carries at most 10
edges and the returned list never exceeds 10 entries. -/
theorem listProductPublications_spec (productId : String)
    (resp : ProductPubsResponse) (p : ProductPayload)
    (hp : resp.product = some p)
    (hlen : p.resourcePublicationsV2.edges.length ≤ 10) :
    listProductPublications productId resp =
      ("gid://shopify/Product/" ++ productId,
        Except.ok (p.resourcePublicationsV2.edges.map (fun e => e.node.publication))) ∧
    (p.resourcePublicationsV2.edges.map (fun e => e.node.publication)).length ≤ 10 := by
  constructor
  · simp [listProductPublications, hp, productGidOf]
  · simpa using hlen

/-- C8 witness: the specification evaluated at a concrete response holding
one resource publication. -/
theorem listProductPublications_spec_witness :
    listProductPublications "42" ⟨some ⟨⟨[⟨⟨⟨"gid://shopify/Publication/1",
        "Online Store"⟩⟩⟩]⟩⟩⟩ =
      ("gid://shopify/Product/42",
        Except.ok [⟨"gid://shopify/Publication/1", "Online Store"⟩]) :=
  (listProductPublications_spec "42" ⟨some ⟨⟨[⟨⟨⟨"gid://shopify/Publication/1",
      "Online Store"⟩⟩⟩]⟩⟩⟩ ⟨⟨[⟨⟨⟨"gid://shopify/Publication/1",
      "Online Store"⟩⟩⟩]⟩⟩ rfl (by decide)).1

/-- C6: with a valid config file on disk, `loadConfig` returns exactly the
parsed contents, issues no interactive prompt, and writes nothing. -/
theorem loadConfig_present_spec (dirname : String) (parse : String → Option Config)
    (contents : String) (cfg : Config) (promptAnswer : Config)
    (hparse : parse contents = some cfg) :
    loadConfig dirname parse (some contents) promptAnswer =
      ⟨Except.ok cfg, 0, [],
        [ConsoleEvent.log ("Using config from " ++ configPath dirname ++ "...")]⟩ := by
  simp [loadConfig, hparse]

/-- C6 witness: the specification evaluated at a concrete parse function
and file contents. -/
theorem loadConfig_present_spec_witness :
    loadConfig "/app" (fun s => if s = "{}" then some ⟨"acme", "tok"⟩ else none)
        (some "{}") ⟨"other", "other"⟩ =
      ⟨Except.ok ⟨"acme", "tok"⟩, 0, [],
        [ConsoleEvent.log "Using config from /app/config.json..."]⟩ :=
  loadConfig_present_spec "/app"
    (fun s => if s = "{}" then some ⟨"acme", "tok"⟩ else none)
    "{}" ⟨"acme", "tok"⟩ ⟨"other", "other"⟩ (by decide)

/-- C7: with the config file absent, `loadConfig` issues exactly one
interactive prompt, performs exactly one write — the collected config
pretty-printed as JSON at the fixed path — and returns the collected
object itself. -/
theorem loadConfig_absent_spec (dirname : String) (parse : String → Option Config)
    (promptAnswer : Config) :
    loadConfig dirname parse none promptAnswer =
      ⟨Except.ok promptAnswer, 1,
        [(configPath dirname, jsonStringifyConfig promptAnswer)],
        [ConsoleEvent.log ("Writing config to " ++ configPath dirname ++ ".")]⟩ :=
  rfl

/-- C10: the select prompt returns the no-selection sentinel exactly when
it was cancelled or the selected choice's value is the empty string; the
Skip choice is valued by the empty string, so a publication whose gid is
empty is indistinguishable from Skip, and a cancelled prompt is
indistinguishable from an explicit Skip. -/
theorem askPublicationGid_sentinel_spec (pubs : List Publication)
    (answer : Option Nat) :
    (askPublicationGid pubs answer = none ↔
      (choiceValue pubs answer = none ∨ choiceValue pubs answer = some "")) ∧
    (∀ i pub, pubs[i]? = some pub → pub.gid = "" →
      askPublicationGid pubs (some (i + 1)) = askPublicationGid pubs (some 0)) ∧
    (askPublicationGid pubs none = askPublicationGid pubs (some 0)) := by
  refine ⟨?_, ?_, ?_⟩
  · unfold askPublicationGid
    cases hv : choiceValue pubs answer with
    | none => simp
    | some v =>
      by_cases h : v = ""
      · subst h; simp
      · simp [h]
  · intro i pub hi hgid
    simp [askPublicationGid, choiceValue, askPublicationChoices,
      List.getElem?_map, hi, hgid]
  · simp [askPublicationGid, choiceValue, askPublicationChoices]

/-- C10 witness: with a publication whose gid is the empty string,
selecting it (index 1) yields the same sentinel as selecting Skip
(index 0) and as cancelling. -/
theorem askPublicationGid_sentinel_spec_witness :
    askPublicationGid [⟨"", "Ghost Channel"⟩] (some 1) =
        askPublicationGid [⟨"", "Ghost Channel"⟩] (some 0) ∧
    askPublicationGid [⟨"", "Ghost Channel"⟩] none =
        askPublicationGid [⟨"", "Ghost Channel"⟩] (some 0) :=
  ⟨(askPublicationGid_sentinel_spec [⟨"", "Ghost Channel"⟩] (some 1)).2.1
      0 ⟨"", "Ghost Channel"⟩ rfl rfl,
    (askPublicationGid_sentinel_spec [⟨"", "Ghost Channel"⟩] none).2.2⟩

theorem all_out_not_publish (cs : List ConsoleEvent) :
    ((cs.map Event.out).all (fun e => ! e.isPublish)) = true := by
  induction cs with
  | nil => rfl
  | cons c cs ih =>
    simp only [List.map_cons, List.all_cons, ih, Bool.and_true]
    rfl

/-- C2: whenever the product-id prompt yields the cancel sentinel or the
empty string, the loop prints `Done!` and terminates normally at once:
its whole remaining trace is that single console line, so no further
network call of any kind is made. -/
theorem mainLoop_stops_on_empty_or_cancel (allPubs : List Publication)
    (clock : Nat → String) (fuel : Nat) (restIds : List (Option String))
    (sels : List (Option Nat)) (resps : List ProductPubsResponse)
    (pubResps : List PublishResponse) :
    mainLoop allPubs clock (fuel + 1) (none :: restIds) sels resps pubResps =
      ([Event.out (ConsoleEvent.log "Done!")], RunResult.done) ∧
    mainLoop allPubs clock (fuel + 1) (some "" :: restIds) sels resps pubResps =
      ([Event.out (ConsoleEvent.log "Done!")], RunResult.done) ∧
    ([Event.out (ConsoleEvent.log "Done!")] : List Event).all
      (fun e => ! e.isNet) = true := by
  refine ⟨?_, ?_, by decide⟩
  · simp [mainLoop, askProductId]
  · simp [mainLoop, askProductId]

/-- C3: in an iteration whose publication-choice prompt yields the
no-selection sentinel, the loop emits no publish call — the iteration's
events are the lookup log, the product-publications query, the printed
block and the `Skipping.` line — and control returns to the product-id
prompt (the run continues exactly as the loop restarted on the remaining
script). -/
theorem mainLoop_skip_no_publish (allPubs : List Publication) (clock : Nat → String)
    (fuel : Nat) (pid : String) (restIds : List (Option String)) (sel : Option Nat)
    (restSels : List (Option Nat)) (resp : ProductPubsResponse)
    (restResps : List ProductPubsResponse) (pubResps : List PublishResponse)
    (p : ProductPayload)
    (hne : pid ≠ "") (hp : resp.product = some p)
    (hskip : askPublicationGid allPubs sel = none) :
    ∃ iterEvs,
      mainLoop allPubs clock (fuel + 1) (some pid :: restIds) (sel :: restSels)
          (resp :: restResps) pubResps =
        (iterEvs ++ (mainLoop allPubs clock fuel restIds restSels restResps pubResps).1,
          (mainLoop allPubs clock fuel restIds restSels restResps pubResps).2) ∧
      iterEvs.all (fun e => ! e.isPublish) = true := by
  refine ⟨[Event.out (ConsoleEvent.log
      ("Looking for publications for product " ++ pid ++ "...")),
      Event.netListProductPubs (productGidOf pid)] ++
      (printPublications ("Publications for product " ++ pid)
        (p.resourcePublicationsV2.edges.map (fun e => e.node.publication))).map
        Event.out ++
      [Event.out (ConsoleEvent.log "Skipping.")], ?_, ?_⟩
  · simp [mainLoop, askProductId, hne, listProductPublications, hp, hskip]
  · simp only [List.all_append, all_out_not_publish, Bool.and_true, Bool.true_and]
    rfl

/-- C3 witness: a concrete two-iteration script in which the operator
skips the publication choice; the run's trace decomposes into the
publish-free iteration followed by the restarted loop. -/
theorem mainLoop_skip_no_publish_witness :
    ∃ iterEvs,
      mainLoop [⟨"gid://shopify/Publication/1", "Online Store"⟩]
          (fun _ => "2021-07-01T00:00:00.000Z") 2
          [some "7", none] [some 0, none] [⟨some ⟨⟨[]⟩⟩⟩] [] =
        (iterEvs ++ (mainLoop [⟨"gid://shopify/Publication/1", "Online Store"⟩]
            (fun _ => "2021-07-01T00:00:00.000Z") 1 [none] [none] [] []).1,
          (mainLoop [⟨"gid://shopify/Publication/1", "Online Store"⟩]
            (fun _ => "2021-07-01T00:00:00.000Z") 1 [none] [none] [] []).2) ∧
      iterEvs.all (fun e => ! e.isPublish) = true :=
  mainLoop_skip_no_publish [⟨"gid://shopify/Publication/1", "Online Store"⟩]
    (fun _ => "2021-07-01T00:00:00.000Z") 1 "7" [none] (some 0) [none]
    ⟨some ⟨⟨[]⟩⟩⟩ [] [] ⟨⟨[]⟩⟩ (by decide) rfl rfl
